import Mathlib

/-
Verification of the cooperative-suspension runtime embedded in
`src/templates/include/asyncops.hpp`: the `Generator` coroutine, the
`GeneratorFactory` object-pool factory, the awaitable `Task`, and the
`sync_wait` synchronous bridge.

The C++20 coroutines are shallowly embedded: a coroutine body is the list
of its observable steps, a resumption is a state-transition function, and
the promise objects become explicit record states.  All definitions are
translated from the source file; line numbers of the modelled code are
cited next to each definition.
-/

set_option autoImplicit false

namespace Asyncops

variable {T E : Type}

/-! ## Generator (asyncops.hpp lines 37-97)

A `Generator<T>` coroutine body is observed through its promise: each
resumption either reaches a `co_yield v` (so `Promise::yield_value`
stores `v` into `current_value`, line 47), runs off the end of the body
(`handle.done()` becomes true, final_suspend line 44), or lets an
exception escape (`Promise::unhandled_exception` line 48, which calls
`std::terminate()`).  `E` is the type of exception payloads. -/

/-- One not-yet-executed step of a `Generator` body: the body either
yields a value or raises an exception at that point. -/
inductive GStep (T E : Type) where
  | yieldv (v : T)
  | raisev (e : E)
  deriving DecidableEq

/-- The state of a suspended `Generator<T>` coroutine frame.
`pending` is the remainder of the body, `current` models
`Promise::current_value` (default-initialized when the frame is
created, line 42), and `doneFlag` models `handle.done()`.  A fresh
generator is suspended before the body (initial_suspend, line 43),
so `pending` holds the whole body, `doneFlag` is `false`. -/
structure GenState (T E : Type) where
  pending : List (GStep T E)
  current : T
  doneFlag : Bool
  deriving DecidableEq

namespace Generator

/-- `handle.resume()` (used by `next`/`resume`/`begin`, lines 83-89):
run the body to its next step.  Reaching `co_yield v` stores `v` in
`current_value`; running off the end makes the handle done;
an escaping exception enters `Promise::unhandled_exception`, which is
`std::terminate()` (line 48) — the process dies, modelled as `none`. -/
def resume : GenState T E → Option (GenState T E)
  | ⟨[], c, _⟩ => some ⟨[], c, true⟩
  | ⟨GStep.yieldv v :: r, _, _⟩ => some ⟨r, v, false⟩
  | ⟨GStep.raisev _ :: _, _, _⟩ => none

/-- `Generator::next()` (line 83): `handle.resume(); return !handle.done();`.
`none` means the resumption terminated the process, so no value returns
to the caller at all. -/
def next (s : GenState T E) : Option (Bool × GenState T E) :=
  match resume s with
  | none => none
  | some t => some (!t.doneFlag, t)

/-- `Generator::get_value()` (line 82): returns `promise().current_value`
without advancing. -/
def get_value (s : GenState T E) : T := s.current

/-- Outcome of one `get_next_value()` call as seen by the caller.
`faulted` (an exception from the body surfacing to the caller) is
expressible but — see `c8_faulting_generator_terminates` — never
produced by this implementation. -/
inductive GenOut (T E : Type) where
  | ok (v : T)
  | exhausted
  | terminated
  | faulted (e : E)
  deriving DecidableEq

/-- `Generator::get_next_value()` (lines 91-96):
`next(); if (handle.done()) throw std::out_of_range{"Generator exhausted"};
return get_value();`.  `exhausted` models the thrown `out_of_range`. -/
def get_next_value (s : GenState T E) : GenOut T E × Option (GenState T E) :=
  match resume s with
  | none => (GenOut.terminated, none)
  | some t =>
    if t.doneFlag then (GenOut.exhausted, some t) else (GenOut.ok t.current, some t)

/-- The outcomes of `n` successive `get_next_value()` calls (a trace
stops early if the process terminated). -/
def gnvTrace : Nat → GenState T E → List (GenOut T E)
  | 0, _ => []
  | n + 1, s =>
    match get_next_value s with
    | (o, none) => [o]
    | (o, some t) => o :: gnvTrace n t

theorem gnv_fst_ne_faulted (s : GenState T E) (e : E) :
    (get_next_value s).1 ≠ GenOut.faulted e := by
  unfold get_next_value
  cases resume s with
  | none => simp
  | some t =>
    by_cases h : t.doneFlag = true <;> simp [h]

theorem faulted_not_mem_gnvTrace (n : Nat) (s : GenState T E) (e : E) :
    GenOut.faulted e ∉ gnvTrace n s := by
  induction n generalizing s with
  | zero => simp [gnvTrace]
  | succ n ih =>
    unfold gnvTrace
    have hne := gnv_fst_ne_faulted s e
    rcases hgo : get_next_value s with ⟨o, s?⟩
    rw [hgo] at hne
    cases s? with
    | none =>
      intro hmem
      simp only [List.mem_singleton] at hmem
      exact hne hmem.symm
    | some t =>
      intro hmem
      rcases List.mem_cons.mp hmem with h | h
      · exact hne h.symm
      · exact ih t h

end Generator

/-- **C2.** For a `Generator` whose body yields exactly the values `ys`
(and then finishes), the first `ys.length` calls to `get_next_value()`
succeed and return the values of `ys` in order, and the next call
raises the Exhausted condition (`std::out_of_range`) instead of
returning a value. -/
theorem c2_finite_generator_yields_then_exhausts (ys : List T) (d : T) (E' : Type) :
    Generator.gnvTrace (ys.length + 1) (⟨ys.map GStep.yieldv, d, false⟩ : GenState T E') =
      ys.map Generator.GenOut.ok ++ [Generator.GenOut.exhausted] := by
  induction ys generalizing d with
  | nil => rfl
  | cons y tl ih =>
    simp only [List.map_cons, List.length_cons, Generator.gnvTrace,
      Generator.get_next_value, Generator.resume]
    simpa using ih y

/-- Concrete instance of C2: a body yielding `[4, 5, 6]` produces
three successes in order and then Exhausted. -/
theorem c2_finite_generator_yields_then_exhausts_witness :
    Generator.gnvTrace 4 (⟨[4, 5, 6].map GStep.yieldv, 0, false⟩ : GenState Nat Nat) =
      [Generator.GenOut.ok 4, Generator.GenOut.ok 5, Generator.GenOut.ok 6,
        Generator.GenOut.exhausted] :=
  c2_finite_generator_yields_then_exhausts [4, 5, 6] 0 Nat

/-- **C8.** A faulting `Generator` body is fatal: a resumption whose next
body step raises an exception reaches `Promise::unhandled_exception`,
i.e. `std::terminate()` — `resume()`, `next()` and `get_next_value()`
never return to the caller on that call, and no trace of
`get_next_value()` outcomes ever surfaces the exception to the caller. -/
theorem c8_faulting_generator_terminates :
    (∀ (e : E) (r : List (GStep T E)) (c : T) (b : Bool),
        Generator.resume (⟨GStep.raisev e :: r, c, b⟩ : GenState T E) = none ∧
        Generator.next (⟨GStep.raisev e :: r, c, b⟩ : GenState T E) = none ∧
        Generator.get_next_value (⟨GStep.raisev e :: r, c, b⟩ : GenState T E) =
          (Generator.GenOut.terminated, none)) ∧
    (∀ (n : Nat) (s : GenState T E) (e : E),
        Generator.GenOut.faulted e ∉ Generator.gnvTrace n s) := by
  constructor
  · intro e r c b
    exact ⟨rfl, rfl, rfl⟩
  · intro n s e
    exact Generator.faulted_not_mem_gnvTrace n s e

/-- Concrete instance of C8: a body that raises `3` on its first
resumption terminates the process, and the exception never appears in
any `get_next_value` trace. -/
theorem c8_faulting_generator_terminates_witness :
    Generator.get_next_value (⟨[GStep.raisev 3], 0, false⟩ : GenState Nat Nat) =
      (Generator.GenOut.terminated, none) ∧
    Generator.GenOut.faulted 3 ∉
      Generator.gnvTrace 2 (⟨[GStep.raisev 3], 0, false⟩ : GenState Nat Nat) :=
  ⟨((@c8_faulting_generator_terminates Nat Nat).1 3 [] 0 false).2.2,
    (@c8_faulting_generator_terminates Nat Nat).2 2 ⟨[GStep.raisev 3], 0, false⟩ 3⟩

/-! ## GeneratorFactory (asyncops.hpp lines 99-197)

`GeneratorFactory<T, N>` keeps `m_pools : std::forward_list<std::vector<T>>`
(newest pool first) and `m_object_counter : size_t`.  The constructor
(lines 128-131) prepends one pool of `N` default-constructed `T`.
`generate()` (lines 177-191) is a coroutine:

    while (true)
      if (m_object_counter < N)
        co_yield std::make_shared<T>(m_pools.begin()->data()[m_object_counter++]);
      else { m_pools.emplace_front(Pool(N, T{})); m_object_counter = 0; }

The only suspension point is the `co_yield` in the then-branch; the
else-branch (pool rollover) does not suspend, so control falls through
to the next loop iteration inside the same resumption.  The yielded
value is `std::make_shared<T>(slot)`, which heap-allocates a fresh `T`
copy-constructed from the pool slot — it does not alias the slot.  The
model tracks those fresh allocations in an explicit `heap`; a handle is
the index of its heap cell. -/

/-- What one resumption of `generate()` hands to the consumer:
`handle` is the freshly `make_shared`-allocated cell (its heap index),
`slotIdx` is the pool index `m_object_counter` held when the slot was
read (the index the yield was built from). -/
structure YieldInfo where
  handle : Nat
  slotIdx : Nat
  deriving DecidableEq

/-- Factory state: `pools` models `m_pools` (newest pool first),
`counter` models `m_object_counter`, and `heap` holds the values of all
cells allocated by `std::make_shared` so far (cell id = index). -/
structure FState (T : Type) where
  pools : List (List T)
  counter : Nat
  heap : List T
  deriving DecidableEq

namespace GeneratorFactory

/-- The constructor (lines 128-131): one pool of `N` default-valued `T`
(`dflt` stands for `T{}`), counter `0`, nothing allocated yet. -/
def initState (N : Nat) (dflt : T) : FState T :=
  ⟨[List.replicate N dflt], 0, []⟩

/-- `m_pools.begin()->data()[i]`: slot `i` of the newest pool.
(`dflt` is only a modelling out-of-range default; every use below is
in bounds.) -/
def slotVal (pools : List (List T)) (i : Nat) (dflt : T) : T :=
  (pools.headD []).getD i dflt

/-- One resumption of the `generate()` coroutine (lines 179-190), run
until its next `co_yield`:
* `counter < N`: yield a fresh heap cell copy-constructed from slot
  `counter` of the newest pool, then `counter++` (then-branch, line 183);
* otherwise prepend a new pool of `N` default `T` and reset `counter`
  to `0` (else-branch, lines 187-188) — no suspension — and the next
  loop iteration yields slot `0` of the new pool, leaving `counter = 1`;
* `N = 0`: the else-branch repeats forever without ever reaching a
  `co_yield`; the resumption never returns (`none`). -/
def generateResume (N : Nat) (dflt : T) (s : FState T) : Option (YieldInfo × FState T) :=
  if s.counter < N then
    some (⟨s.heap.length, s.counter⟩,
      ⟨s.pools, s.counter + 1, s.heap ++ [slotVal s.pools s.counter dflt]⟩)
  else if N = 0 then none
  else
    some (⟨s.heap.length, 0⟩,
      ⟨List.replicate N dflt :: s.pools, 1,
        s.heap ++ [slotVal (List.replicate N dflt :: s.pools) 0 dflt]⟩)

/-- `*handle` — reading the `T` a distributed `shared_ptr` points to. -/
def derefHandle (s : FState T) (h : Nat) (dflt : T) : T :=
  s.heap.getD h dflt

/-- `*handle = v` — writing through a distributed `shared_ptr`.  The
pointee is the `make_shared`-allocated cell, so only the heap cell
changes. -/
def writeHandle (s : FState T) (h : Nat) (v : T) : FState T :=
  ⟨s.pools, s.counter, s.heap.set h v⟩

/-- `n` successive resumptions of `generate()`: the yields handed out
and the final factory state (stops early if a resumption never
returns). -/
def genTrace (N : Nat) (dflt : T) : Nat → FState T → List YieldInfo × FState T
  | 0, s => ([], s)
  | n + 1, s =>
    match generateResume N dflt s with
    | none => ([], s)
    | some (yi, t) =>
      let p := genTrace N dflt n t
      (yi :: p.1, p.2)

theorem generateResume_inv (N : Nat) (dflt : T) (s : FState T)
    (h2 : s.pools ≠ []) :
    ∀ yi t, generateResume N dflt s = some (yi, t) →
      t.counter ≤ N ∧ t.pools ≠ [] ∧ yi.slotIdx < N := by
  intro yi t h
  unfold generateResume at h
  by_cases hlt : s.counter < N
  · simp only [hlt, if_true] at h
    cases h
    exact ⟨hlt, h2, hlt⟩
  · simp only [hlt, if_false] at h
    by_cases hz : N = 0
    · simp [hz] at h
    · simp only [hz, if_false] at h
      cases h
      exact ⟨Nat.one_le_iff_ne_zero.mpr hz, by simp, Nat.pos_of_ne_zero hz⟩

theorem genTrace_inv (N : Nat) (dflt : T) (n : Nat) (s : FState T)
    (h1 : s.counter ≤ N) (h2 : s.pools ≠ []) :
    (genTrace N dflt n s).2.counter ≤ N ∧ (genTrace N dflt n s).2.pools ≠ [] ∧
      ∀ yi ∈ (genTrace N dflt n s).1, yi.slotIdx < N := by
  induction n generalizing s with
  | zero => exact ⟨h1, h2, by simp [genTrace]⟩
  | succ n ih =>
    unfold genTrace
    rcases hres : generateResume N dflt s with _ | ⟨yi, t⟩
    · exact ⟨h1, h2, by simp⟩
    · obtain ⟨ht1, ht2, htidx⟩ := generateResume_inv N dflt s h2 yi t hres
      obtain ⟨k1, k2, k3⟩ := ih t ht1 ht2
      refine ⟨k1, k2, ?_⟩
      intro z hz
      simp only [List.mem_cons] at hz
      rcases hz with hz | hz
      · exact hz ▸ htidx
      · exact k3 z hz

end GeneratorFactory

/-- **C4 counterexample.** Pool size `N = 1`, second resumption: the
cursor has reached `N` (`counter = 1`), yet `generate()` *does* yield a
value in that resumption — it prepends the new pool, resets the index,
and immediately yields slot 0 of the new pool (the else-branch of the
loop contains no suspension point), contradicting the claimed
"produces no value during that resumption". -/
theorem c4_rollover_yields_counterexample :
    GeneratorFactory.generateResume 1 (0 : Nat) ⟨[[0]], 1, [0]⟩ =
      some (⟨1, 0⟩, ⟨[[0], [0]], 1, [0, 0]⟩) := by decide

/-- **C4 (amended).** The resumption at which the Object Cursor's index
has reached `N` (with `N ≥ 1`) prepends a new pool of `N`
default-constructed `T` and resets the index to 0, and then — within
the same resumption, because the rollover branch has no suspension
point — yields a handle copy-constructed from slot 0 of the new pool,
leaving the index at 1.  Pool rollover consumes no extra resumption and
never produces a value-less resumption. -/
theorem c4_rollover_same_resumption_yield (N : Nat) (dflt : T) (s : FState T)
    (hN : 0 < N) (hc : s.counter = N) :
    GeneratorFactory.generateResume N dflt s =
      some (⟨s.heap.length, 0⟩,
        ⟨List.replicate N dflt :: s.pools, 1, s.heap ++ [dflt]⟩) := by
  unfold GeneratorFactory.generateResume
  have hnlt : ¬ s.counter < N := by omega
  have hz : ¬ N = 0 := by omega
  simp only [hnlt, if_false, hz]
  have : GeneratorFactory.slotVal (List.replicate N dflt :: s.pools) 0 dflt = dflt := by
    unfold GeneratorFactory.slotVal
    cases N with
    | zero => omega
    | succ m => simp [List.replicate_succ]
  rw [this]

/-- Concrete instance of the amended C4: with `N = 1`, the rollover
resumption yields slot 0 of the freshly prepended pool. -/
theorem c4_rollover_same_resumption_yield_witness :
    GeneratorFactory.generateResume 1 (0 : Nat) ⟨[[0]], 1, [0]⟩ =
      some (⟨1, 0⟩, ⟨List.replicate 1 0 :: [[0]], 1, [0] ++ [0]⟩) :=
  c4_rollover_same_resumption_yield 1 0 ⟨[[0]], 1, [0]⟩ (by decide) rfl

/-- **C5 (code behaviour at the failing input).** Pool size 1 over
`Nat` (default 0).  The first resumption of `generate()` distributes
handle 0, built by `std::make_shared<T>(slot)` — a fresh heap cell
copy-constructed from pool slot 0, not an aliasing pointer.  Writing
42 through the handle updates the heap cell, while pool slot 0 of the
newest pool still holds 0: the write is not visible in the pool slot,
contrary to the claim. -/
theorem c5_handle_is_copy_not_alias :
    GeneratorFactory.generateResume 1 (0 : Nat) (GeneratorFactory.initState 1 0) =
      some (⟨0, 0⟩, ⟨[[0]], 1, [0]⟩) ∧
    GeneratorFactory.derefHandle
      (GeneratorFactory.writeHandle ⟨[[0]], 1, [0]⟩ 0 42) 0 0 = 42 ∧
    GeneratorFactory.slotVal
      (GeneratorFactory.writeHandle ⟨[[0]], 1, [0]⟩ 0 42).pools 0 0 = 0 := by
  refine ⟨by decide, by decide, by decide⟩

/-- **C10.** Cursor invariant of `GeneratorFactory<T, N>`: after
construction and after every number `n` of resumptions of `generate()`,
`m_object_counter ≤ N` (it is a `size_t`, so `0 ≤ m_object_counter`
holds trivially), the pool chain is non-empty, and every yield handed
out so far was built from a pool index strictly below `N` in the newest
pool at the moment of the yield. -/
theorem c10_cursor_invariant (N : Nat) (dflt : T) (n : Nat) :
    (GeneratorFactory.initState N dflt).counter ≤ N ∧
    (GeneratorFactory.initState N dflt).pools ≠ [] ∧
    (GeneratorFactory.genTrace N dflt n (GeneratorFactory.initState N dflt)).2.counter ≤ N ∧
    (GeneratorFactory.genTrace N dflt n (GeneratorFactory.initState N dflt)).2.pools ≠ [] ∧
    ∀ yi ∈ (GeneratorFactory.genTrace N dflt n (GeneratorFactory.initState N dflt)).1,
      yi.slotIdx < N := by
  have h1 : (GeneratorFactory.initState N dflt).counter ≤ N := Nat.zero_le N
  have h2 : (GeneratorFactory.initState N dflt).pools ≠ [] := by
    simp [GeneratorFactory.initState]
  obtain ⟨k1, k2, k3⟩ := GeneratorFactory.genTrace_inv N dflt n _ h1 h2
  exact ⟨h1, h2, k1, k2, k3⟩

/-- Concrete instance of C10: `N = 2`, three resumptions (the third is
a rollover): the final counter is 1 ≤ 2, the chain has two pools, and
the rollover yield was built from slot index 0 < 2. -/
theorem c10_cursor_invariant_witness :
    (GeneratorFactory.genTrace 2 (0 : Nat) 3 (GeneratorFactory.initState 2 0)).2.counter ≤ 2 ∧
    (GeneratorFactory.genTrace 2 (0 : Nat) 3 (GeneratorFactory.initState 2 0)).2.pools ≠ [] ∧
    (⟨2, 0⟩ : YieldInfo).slotIdx < 2 :=
  ⟨(c10_cursor_invariant 2 0 3).2.2.1,
    (c10_cursor_invariant 2 0 3).2.2.2.1,
    (c10_cursor_invariant 2 0 3).2.2.2.2 ⟨2, 0⟩ (by decide)⟩

/-! ## Task (asyncops.hpp lines 200-240)

`Task<T>::promise_type` (lines 203-221) holds
`std::variant<std::monostate, T, std::exception_ptr> result` and a
continuation handle.  `return_value` emplaces alternative 1,
`unhandled_exception` emplaces alternative 2 with
`std::current_exception()`.  `Task<T>::await_resume` (lines 232-239)
reads the variant: index 1 returns `std::get<1>(std::move(result))`,
otherwise it calls `std::rethrow_exception(std::get<2>(std::move(result)))`.

The embedding treats `T` as a pure value type whose move preserves the
mathematical value (exact for trivially copyable `T`, such as the `int`
used throughout the spec's scenarios).  `std::exception_ptr` is a
nullable smart pointer, modelled as `Option E`: moving from it leaves
the stored pointer null, which `await_resume` does on the rethrow
path. -/

/-- The promise's three-way result slot
(`std::variant<std::monostate, T, std::exception_ptr>`, line 205).
`error p` stores an exception pointer; `error none` is a null
`exception_ptr` (as left behind after a move). -/
inductive TaskSlot (T E : Type) where
  | unset
  | value (v : T)
  | error (p : Option E)
  deriving DecidableEq

namespace Task

/-- `promise_type::return_value` (line 208): `result.emplace<1>(move(value))`. -/
def return_value (v : T) (_ : TaskSlot T E) : TaskSlot T E := TaskSlot.value v

/-- `promise_type::unhandled_exception` (line 209):
`result.emplace<2>(std::current_exception())`. -/
def unhandled_exception (e : E) (_ : TaskSlot T E) : TaskSlot T E :=
  TaskSlot.error (some e)

/-- The promise's result slot after the task body has run to its final
suspension point: the body either returned a value (`return_value`) or
let an exception escape (`unhandled_exception`); the slot starts as
`monostate` (`unset`). -/
def completeSlot (r : Except E T) : TaskSlot T E :=
  match r with
  | Except.ok v => return_value v TaskSlot.unset
  | Except.error e => unhandled_exception e TaskSlot.unset

/-- What one call to `Task<T>::await_resume` does for the caller.
`badVariant` models the `std::bad_variant_access` that
`std::get<2>` throws when the variant still holds `monostate`;
`ub` models `std::rethrow_exception` on a null `exception_ptr`,
whose behaviour is undefined. -/
inductive ObsOut (T E : Type) where
  | ret (v : T)
  | rethrown (e : E)
  | badVariant
  | ub
  deriving DecidableEq

/-- `Task<T>::await_resume` (lines 232-239), with the slot it leaves
behind.  Index 1: returns the stored value (the variant keeps index 1;
the move preserves the value for the value-like `T` modelled here).
Otherwise: `std::get<2>(std::move(result))` moves the `exception_ptr`
out — leaving the stored pointer null — and rethrows it; on a slot
whose pointer is already null the rethrow is undefined behaviour, and
on a `monostate` slot `std::get<2>` throws `std::bad_variant_access`. -/
def await_resume : TaskSlot T E → ObsOut T E × TaskSlot T E
  | TaskSlot.value v => (ObsOut.ret v, TaskSlot.value v)
  | TaskSlot.error (some e) => (ObsOut.rethrown e, TaskSlot.error none)
  | TaskSlot.error none => (ObsOut.ub, TaskSlot.error none)
  | TaskSlot.unset => (ObsOut.badVariant, TaskSlot.unset)

end Task

/-- **C3.** For every completed `Task<T>` body outcome `r`: if the body
returned `v` the result slot holds `v`; if an exception `e` escaped the
body the slot holds the captured exception; and the await-resume
observation returns the stored value resp. rethrows the stored
exception — it never hits the undefined or bad-variant paths, so an
escaping exception is never silently dropped. -/
theorem c3_result_slot_replays_outcome (r : Except E T) :
    Task.completeSlot r =
      (match r with
        | Except.ok v => TaskSlot.value v
        | Except.error e => TaskSlot.error (some e)) ∧
    (Task.await_resume (Task.completeSlot r)).1 =
      (match r with
        | Except.ok v => Task.ObsOut.ret v
        | Except.error e => Task.ObsOut.rethrown e) ∧
    (Task.await_resume (Task.completeSlot r)).1 ≠ Task.ObsOut.ub ∧
    (Task.await_resume (Task.completeSlot r)).1 ≠ Task.ObsOut.badVariant := by
  cases r <;>
    simp [Task.completeSlot, Task.await_resume, Task.return_value,
      Task.unhandled_exception]

/-- Concrete instance of C3 at both outcomes: a body returning `5` and
a body failing with exception `7`. -/
theorem c3_result_slot_replays_outcome_witness :
    (Task.await_resume (Task.completeSlot (Except.ok 5 : Except Nat Nat))).1 =
      Task.ObsOut.ret 5 ∧
    (Task.await_resume (Task.completeSlot (Except.error 7 : Except Nat Nat))).1 =
      Task.ObsOut.rethrown 7 :=
  ⟨(c3_result_slot_replays_outcome (Except.ok 5 : Except Nat Nat)).2.1,
    (c3_result_slot_replays_outcome (Except.error 7 : Except Nat Nat)).2.1⟩

/-- **C6 counterexample.** A task completed with exception `7`: the
first observation rethrows `7` but moves the stored `exception_ptr`
out, leaving it null; the second observation then calls
`std::rethrow_exception` on a null pointer — undefined behaviour, not a
rethrow of the same exception. -/
theorem c6_second_observation_counterexample :
    (Task.await_resume (Task.completeSlot (Except.error 7 : Except Nat Nat))).1 =
      Task.ObsOut.rethrown 7 ∧
    (Task.await_resume
        ((Task.await_resume (Task.completeSlot (Except.error 7 : Except Nat Nat))).2)).1 =
      Task.ObsOut.ub ∧
    (Task.ObsOut.ub : Task.ObsOut Nat Nat) ≠ Task.ObsOut.rethrown 7 := by
  refine ⟨rfl, rfl, by decide⟩

/-- **C6 (amended).** The outcome of a completed `Task` is fixed at
completion, but observation is only idempotent on the value
alternative: a second `await_resume` after a value-returning body
returns the same value (the variant keeps alternative 1, and moves
preserve the value for the value-like `T` modelled here), whereas after
a faulting body the first observation moves the stored `exception_ptr`
out (leaving it null), so a second observation does not rethrow the
same exception — it invokes `std::rethrow_exception` on a null pointer,
which is undefined. -/
theorem c6_observation_idempotent_only_for_values (v : T) (e : E) :
    (Task.await_resume (Task.completeSlot (Except.ok v : Except E T))).1 =
      Task.ObsOut.ret v ∧
    (Task.await_resume
        ((Task.await_resume (Task.completeSlot (Except.ok v : Except E T))).2)).1 =
      Task.ObsOut.ret v ∧
    (Task.await_resume (Task.completeSlot (Except.error e : Except E T))).1 =
      Task.ObsOut.rethrown e ∧
    (Task.await_resume (Task.completeSlot (Except.error e : Except E T))).2 =
      TaskSlot.error none ∧
    (Task.await_resume
        ((Task.await_resume (Task.completeSlot (Except.error e : Except E T))).2)).1 =
      Task.ObsOut.ub :=
  ⟨rfl, rfl, rfl, rfl, rfl⟩

/-- Concrete instance of the amended C6: value `5` observed twice gives
`5` twice; exception `7` rethrows once, then the slot holds a null
pointer and the second observation is undefined. -/
theorem c6_observation_idempotent_only_for_values_witness :
    (Task.await_resume
        ((Task.await_resume (Task.completeSlot (Except.ok 5 : Except Nat Nat))).2)).1 =
      Task.ObsOut.ret 5 ∧
    (Task.await_resume
        ((Task.await_resume (Task.completeSlot (Except.error 7 : Except Nat Nat))).2)).1 =
      Task.ObsOut.ub :=
  ⟨(c6_observation_idempotent_only_for_values (5 : Nat) (7 : Nat)).2.1,
    (c6_observation_idempotent_only_for_values (5 : Nat) (7 : Nat)).2.2.2.2⟩

/-! ## Handle ownership (asyncops.hpp lines 77-81, 224-225, 320-321)

Move construction and destruction of the coroutine-owning handles.
`Generator(Generator&& other)` (line 79) copies the handle and nulls
the source; `Task(Task&& t)` (line 224) copies the handle and leaves
the source untouched.  Both destructors run
`if (handle) handle.destroy();` (lines 77 and 225). -/

/-- A handle wrapper owning (or not) a coroutine frame, identified by a
number; `none` models a null `std::coroutine_handle`. -/
structure HandleOwner where
  h : Option Nat
  deriving DecidableEq

/-- `Task(Task&& t) noexcept : handle{ t.handle } {}` (line 224):
returns (new handle, source after the move).  The source is left
unchanged — it still holds the same frame. -/
def Task.moveConstruct (t : HandleOwner) : HandleOwner × HandleOwner :=
  (⟨t.h⟩, ⟨t.h⟩)

/-- `Generator(Generator&& other) noexcept : handle(other.handle)
{ other.handle = nullptr; }` (line 79): returns (new handle, source
after the move).  The source is emptied. -/
def Generator.moveConstruct (g : HandleOwner) : HandleOwner × HandleOwner :=
  (⟨g.h⟩, ⟨none⟩)

/-- `~Task() { if (handle) handle.destroy(); }` (line 225, and line 77
for `Generator`): how many times this handle's destructor calls
`destroy()` on the frame. -/
def destructorDestroyCount (t : HandleOwner) : Nat :=
  match t.h with
  | some _ => 1
  | none => 0

/-- **C9 (code behaviour at the failing input).** Move-constructing a
`Task` from a `Task` owning frame 0 leaves the source handle still set
to frame 0, so destroying the moved-to and the moved-from handle calls
`handle.destroy()` on the same frame twice — not exactly once as
claimed.  `Generator`'s move constructor, by contrast, nulls the source
and the frame is destroyed exactly once. -/
theorem c9_task_move_double_destroy :
    (Task.moveConstruct ⟨some 0⟩).2.h = some 0 ∧
    destructorDestroyCount (Task.moveConstruct ⟨some 0⟩).1 +
      destructorDestroyCount (Task.moveConstruct ⟨some 0⟩).2 = 2 ∧
    destructorDestroyCount (Generator.moveConstruct ⟨some 0⟩).1 +
      destructorDestroyCount (Generator.moveConstruct ⟨some 0⟩).2 = 1 := by
  refine ⟨rfl, rfl, rfl⟩

/-! ## sync_wait / SyncWaitTask (asyncops.hpp lines 293-356)

A task body, for the purpose of the bridge, is a tree of awaits ending
in `co_return`/throw: `pure r` is a body that immediately finishes with
outcome `r`; `await sub k` awaits the sub-task `sub` (its
`await_suspend`, line 227, records the awaiting frame as continuation
and symmetric-transfers into `sub`; `sub`'s `final_suspend` awaitable,
lines 211-220, resumes the continuation) and then continues as `k`
applied to the awaited value.  Running a body to completion is the
single-threaded cooperative execution of that chain: awaiting runs the
sub-task body, records its outcome in the sub-task's slot, and the
`await_resume` observation (see `awaitResume_completeSlot`) returns the
value into `k` or lets the rethrown exception escape into the awaiting
body (whose own `unhandled_exception` then captures it). -/

/-- A `Task` body: either finish with outcome `r`, or await a sub-task
and continue with its value. -/
inductive TaskBody (T E : Type) where
  | pure (r : Except E T)
  | await (sub : TaskBody T E) (k : T → TaskBody T E)

/-- Cooperative execution of a task chain to completion: the outcome
the root body's promise records.  The `await` case is justified against
the slot/observation machinery by `awaitResume_completeSlot`. -/
def runTask : TaskBody T E → Except E T
  | TaskBody.pure r => r
  | TaskBody.await sub k =>
    match runTask sub with
    | Except.ok v => runTask (k v)
    | Except.error e => Except.error e

/-- The first observation of a completed sub-task's slot returns its
value or rethrows its captured exception — the link between `runTask`'s
`await` case and the `Task` promise machinery. -/
theorem awaitResume_completeSlot (r : Except E T) :
    (Task.await_resume (Task.completeSlot r)).1 =
      (match r with
        | Except.ok v => Task.ObsOut.ret v
        | Except.error e => Task.ObsOut.rethrown e) := by
  cases r <;> rfl

/-- `SyncWaitTask<T>::promise_type` (lines 296-317): a raw result
pointer (`value`, modelled by the pointed-at value), an
`exception_ptr error`, and a `std::binary_semaphore sema4` with initial
count 0. -/
structure SWPromise (T E : Type) where
  value : Option T
  error : Option E
  sema4 : Nat
  deriving DecidableEq

namespace SWPromise

/-- Promise state at frame creation (lines 298-300). -/
def start : SWPromise T E := ⟨none, none, 0⟩

/-- `yield_value` (lines 303-307): `value = std::addressof(x)`. -/
def yield_value (p : SWPromise T E) (v : T) : SWPromise T E :=
  ⟨some v, p.error, p.sema4⟩

/-- `unhandled_exception` (line 302): `error = std::current_exception()`. -/
def unhandled_exception (p : SWPromise T E) (e : E) : SWPromise T E :=
  ⟨p.value, some e, p.sema4⟩

/-- The final-suspend awaitable's `await_suspend` (line 312):
`sema4.release()`. -/
def finalSuspendRelease (p : SWPromise T E) : SWPromise T E :=
  ⟨p.value, p.error, p.sema4 + 1⟩

end SWPromise

/-- Resuming the helper coroutine of `sync_wait` (the lambda at lines
349-353: `co_yield co_await std::forward<T>(Task);`) once, i.e. the
`handle.resume()` in `SyncWaitTask::get` (line 325): the awaited chain
runs to completion; a value reaches the `co_yield` (`yield_value` then
`final_suspend`), an escaping rethrow reaches `unhandled_exception`
then `final_suspend`; either way `final_suspend` releases the
semaphore exactly once. -/
def SyncWaitTask.run (root : TaskBody T E) : SWPromise T E :=
  match runTask root with
  | Except.ok v => SWPromise.finalSuspendRelease (SWPromise.yield_value SWPromise.start v)
  | Except.error e =>
    SWPromise.finalSuspendRelease (SWPromise.unhandled_exception SWPromise.start e)

/-- What `sync_wait` delivers to its (non-coroutine) caller. `stuck`
models a `sema4.acquire()` that is never released — the bridge blocks
forever — or the unreachable dereference of a null result pointer. -/
inductive BridgeOutcome (T E : Type) where
  | value (v : T)
  | raised (e : E)
  | stuck
  deriving DecidableEq

/-- `SyncWaitTask<T>::get` (lines 322-330): resume the helper, acquire
the semaphore (blocking forever if it was never released), then rethrow
the captured error if any, else return the yielded value. -/
def SyncWaitTask.get (root : TaskBody T E) : BridgeOutcome T E :=
  let p := SyncWaitTask.run root
  if p.sema4 = 0 then BridgeOutcome.stuck
  else
    match p.error with
    | some e => BridgeOutcome.raised e
    | none =>
      match p.value with
      | some v => BridgeOutcome.value v
      | none => BridgeOutcome.stuck

/-- `sync_wait` (lines 334-356, non-void branch): wrap the awaitable in
the `SyncWaitTask` helper coroutine and run `get()`. -/
def sync_wait (root : TaskBody T E) : BridgeOutcome T E :=
  SyncWaitTask.get root

/-- **C1.** Round-trip through the synchronous bridge: for every task
body that completes with value `v`, `sync_wait` returns `v`; for every
task body whose execution ends with exception `e`, `sync_wait` rethrows
an exception equivalent to `e`. -/
theorem c1_sync_wait_round_trip :
    (∀ (root : TaskBody T E) (v : T),
        runTask root = Except.ok v → sync_wait root = BridgeOutcome.value v) ∧
    (∀ (root : TaskBody T E) (e : E),
        runTask root = Except.error e → sync_wait root = BridgeOutcome.raised e) := by
  constructor
  · intro root v h
    simp [sync_wait, SyncWaitTask.get, SyncWaitTask.run, h, SWPromise.finalSuspendRelease,
      SWPromise.yield_value, SWPromise.start]
  · intro root e h
    simp [sync_wait, SyncWaitTask.get, SyncWaitTask.run, h, SWPromise.finalSuspendRelease,
      SWPromise.unhandled_exception, SWPromise.start]

/-- Concrete instance of C1: a task completing with `5` bridges to `5`;
a task faulting with exception `9` bridges to a rethrow of `9`. -/
theorem c1_sync_wait_round_trip_witness :
    sync_wait (TaskBody.pure (Except.ok 5) : TaskBody Nat Nat) = BridgeOutcome.value 5 ∧
    sync_wait (TaskBody.pure (Except.error 9) : TaskBody Nat Nat) = BridgeOutcome.raised 9 :=
  ⟨(@c1_sync_wait_round_trip Nat Nat).1 (TaskBody.pure (Except.ok 5)) 5 rfl,
    (@c1_sync_wait_round_trip Nat Nat).2 (TaskBody.pure (Except.error 9)) 9 rfl⟩

/-- The §8 scenario body: await a sub-task returning 10, then a
sub-task returning 32, and return their sum. -/
def twoAwaitBody : TaskBody Int Nat :=
  TaskBody.await (TaskBody.pure (Except.ok 10)) (fun a =>
    TaskBody.await (TaskBody.pure (Except.ok 32)) (fun b =>
      TaskBody.pure (Except.ok (a + b))))

/-- **C7.** Sequential chaining through the bridge: `sync_wait` on a
task that awaits two sub-tasks in order (completing with 10 and 32) and
returns their sum delivers 42, and the bridge completes rather than
blocking forever on its semaphore. -/
theorem c7_chained_sum_through_bridge :
    sync_wait twoAwaitBody = BridgeOutcome.value 42 ∧
    sync_wait twoAwaitBody ≠ BridgeOutcome.stuck := by
  refine ⟨by decide, by decide⟩

end Asyncops
